import Mathlib

/-!
Verification of the DataCert event-sourced reconciliation subsystem.

Shallow embedding of:
- the trust scorer (`calculateTrustScore`, src/backend/src/services/trustOracle.ts)
- the integrity verifier (`verifyDataIntegrity`, `verifyIntegrityRoot`)
- the ledger indexer (`BlockchainIndexer.processAccessEvent`)
- the access gates (`recordAccess` off-chain, `record_access` on-chain,
  src/contracts/sources/dataset_certificate.move)
- the projection writer (`PrismaService.saveTrustScore`)
- the Nautilus attestation pipeline (`finalizeNautilusVerification`,
  `SuiClient.updateTrustScoreWithNautilus`, `update_trust_score_with_nautilus`)

Wall-clock timestamps (`lastUpdated`, `Date.now()`) are modelled out or passed
explicitly; cryptographic primitives (SHA-256, SHA-512, ed25519, BCS
serialization) and network outcomes are abstracted as environment parameters,
since they are external library calls in the source.
-/

namespace DataCert

/-- Claim severity (src/backend/src/types/dataset.ts, `DatasetClaim['severity']`). -/
inductive Severity
  | info
  | warning
  | critical
deriving DecidableEq, Repr

/-- An off-chain claim record (src/backend/src/types/dataset.ts `DatasetClaim`). -/
structure DatasetClaim where
  id : String
  role : String
  statement : String
  evidenceUri : Option String
  severity : Severity
  createdAt : String
  resolved : Bool
deriving DecidableEq, Repr

/-- A provenance timeline event (src/backend/src/types/dataset.ts `TimelineEvent`). -/
structure TimelineEvent where
  id : String
  eventType : String
  description : String
deriving DecidableEq, Repr

/-- Walrus blob metadata (src/backend/src/types/dataset.ts `WalrusUploadResult`). -/
structure WalrusInfo where
  blobId : String
  integrityRoot : String
  proof : String
  sizeBytes : Nat
deriving DecidableEq, Repr

/-- Content hash pair (src/backend/src/types/dataset.ts `DatasetRecord.hashes`). -/
structure Hashes where
  sha256 : String
  poseidon : String
deriving DecidableEq, Repr

/-- Usage counters (src/backend/src/types/dataset.ts `DatasetRecord.metrics`). -/
structure Metrics where
  downloads : Nat
  revenueWal : Int
  disputes : Nat
deriving DecidableEq, Repr

/-- Access policy kind (src/backend/src/types/dataset.ts `AccessPolicy.type`). -/
inductive AccessPolicyType
  | publicAccess
  | tokenGated
  | stakeGated
deriving DecidableEq, Repr

/-- Access policy (src/backend/src/types/dataset.ts `AccessPolicy`). -/
structure AccessPolicy where
  policyType : AccessPolicyType
  minStake : Option Nat
  allowedTokens : Option (List String)
deriving DecidableEq, Repr

/-- The canonical per-dataset evidence bundle
(src/backend/src/types/dataset.ts `DatasetRecord`). -/
structure DatasetRecord where
  id : String
  ownerAddress : String
  title : String
  description : String
  walrus : WalrusInfo
  hashes : Hashes
  status : String
  certificateId : Option String
  metrics : Metrics
  accessPolicy : AccessPolicy
  claims : List DatasetClaim
  timeline : List TimelineEvent
deriving DecidableEq, Repr

/-- Result of Walrus integrity verification
(src/backend/src/types/trust.ts `IntegrityVerificationResult`). -/
structure IntegrityVerificationResult where
  sha256Match : Bool
  poseidonMatch : Bool
  integrityRootValid : Bool
  walrusLatencyMs : Option Nat
deriving DecidableEq, Repr

/-- Signed enclave attestation (src/backend/src/types/trust.ts
`NautilusVerificationProof`). -/
structure NautilusVerificationProof where
  blobId : String
  expectedSha256 : String
  computedSha256 : String
  verified : Bool
  blobSize : Nat
  walrusGateway : String
  timestampMs : Nat
  signature : String
deriving DecidableEq, Repr

/-- Provenance factor explanation (src/backend/src/types/trust.ts
`TrustScore.factors.provenance`). -/
structure ProvenanceFactor where
  timelineEvents : Nat
  score : Int
  details : String
deriving DecidableEq, Repr

/-- Integrity factor explanation (src/backend/src/types/trust.ts
`TrustScore.factors.integrity`). -/
structure IntegrityFactor where
  sha256Verified : Bool
  poseidonVerified : Bool
  integrityRootValid : Bool
  score : Int
  details : String
deriving DecidableEq, Repr

/-- Audit factor explanation (src/backend/src/types/trust.ts
`TrustScore.factors.audit`). -/
structure AuditFactor where
  criticalClaims : Nat
  warningClaims : Nat
  infoClaims : Nat
  score : Int
  details : String
deriving DecidableEq, Repr

/-- Usage factor explanation (src/backend/src/types/trust.ts
`TrustScore.factors.usage`). -/
structure UsageFactor where
  downloads : Nat
  score : Int
  details : String
deriving DecidableEq, Repr

/-- The four-factor explanation block (src/backend/src/types/trust.ts
`TrustScore.factors`). -/
structure TrustFactors where
  provenance : ProvenanceFactor
  integrity : IntegrityFactor
  audit : AuditFactor
  usage : UsageFactor
deriving DecidableEq, Repr

/-- A trust-score snapshot (src/backend/src/types/trust.ts `TrustScore`).
The `lastUpdated` wall-clock field is modelled out. -/
structure TrustScore where
  datasetId : String
  score : Int
  provenanceScore : Int
  integrityScore : Int
  auditScore : Int
  usageScore : Int
  verifiedByNautilus : Bool
  integrityCheck : Option IntegrityVerificationResult
  nautilusProof : Option NautilusVerificationProof
  factors : TrustFactors
deriving DecidableEq, Repr

/-- `describeIntegrityDetails` (trustOracle.ts).  In the source its value is
immediately overwritten by every branch of the integrity if-chain in
`calculateTrustScore`, so it never reaches the output; it is embedded for
completeness. -/
def describeIntegrityDetails (verification : Option IntegrityVerificationResult)
    (sha256Verified poseidonVerified integrityRootValid : Bool) : String :=
  match verification with
  | none =>
    if sha256Verified && poseidonVerified && integrityRootValid then
      "Full integrity verification (SHA256 + Poseidon + Root)"
    else if sha256Verified && poseidonVerified then
      "Dual hash verification (SHA256 + Poseidon)"
    else if sha256Verified then
      "Basic hash verification (SHA256 only)"
    else
      "No integrity verification"
  | some _ =>
    if sha256Verified && poseidonVerified && integrityRootValid then
      "Walrus verified: SHA256, Poseidon hash, and integrity root match"
    else
      let issues : List String :=
        (if !sha256Verified then ["SHA256 mismatch"] else [])
        ++ (if !poseidonVerified then ["Poseidon mismatch"] else [])
        ++ (if !integrityRootValid then ["Integrity root missing"] else [])
      if issues.length ≠ 0 then
        "Walrus verification issues: " ++ String.intercalate ", " issues
      else
        "Walrus verification performed (no issues reported)"

/-- Provenance factor block of `calculateTrustScore` (trustOracle.ts lines 22-42):
stepped score plus details string, keyed by timeline-event count. -/
def provenanceFactor (timelineEvents : Nat) : Int × String :=
  if timelineEvents ≥ 5 then (25, "Excellent provenance tracking (5+ events)")
  else if timelineEvents ≥ 3 then (20, "Good provenance tracking (3-4 events)")
  else if timelineEvents ≥ 2 then (15, "Moderate provenance tracking (2 events)")
  else if timelineEvents ≥ 1 then (10, "Minimal provenance tracking (1 event)")
  else (0, "No provenance tracking")

/-- Integrity factor block of `calculateTrustScore` (trustOracle.ts lines 62-74). -/
def integrityFactor (sha256Verified poseidonVerified integrityRootValid : Bool) :
    Int × String :=
  if sha256Verified && poseidonVerified && integrityRootValid then
    (25, "Full integrity verification (SHA256 + Poseidon + Root)")
  else if sha256Verified && poseidonVerified then
    (20, "Dual hash verification (SHA256 + Poseidon)")
  else if sha256Verified then
    (15, "Basic hash verification (SHA256 only)")
  else
    (0, "No integrity verification")

/-- Audit score of `calculateTrustScore` (trustOracle.ts lines 81-83):
start at 25, subtract 10/5/2 per critical/warning/info claim, floor at 0. -/
def auditFactorScore (criticalClaims warningClaims infoClaims : Nat) : Int :=
  max 0 (25 - ((criticalClaims : Int) * 10) - ((warningClaims : Int) * 5)
    - ((infoClaims : Int) * 2))

/-- Usage factor block of `calculateTrustScore` (trustOracle.ts lines 92-115). -/
def usageFactor (downloads : Nat) : Int × String :=
  if downloads ≥ 100 then (25, "Highly trusted (100+ downloads)")
  else if downloads ≥ 50 then (20, "Well trusted (50-99 downloads)")
  else if downloads ≥ 20 then (15, "Moderately trusted (20-49 downloads)")
  else if downloads ≥ 5 then (10, "Some trust established (5-19 downloads)")
  else if downloads ≥ 1 then (5, "Minimal usage (1-4 downloads)")
  else (0, "No usage history")

/-- `calculateTrustScore` (src/backend/src/services/trustOracle.ts lines 17-157).
Pure four-factor scorer.  `lastUpdated := new Date().toISOString()` is modelled
out; `nautilusProof` is attached later by the attestation pipeline. -/
def calculateTrustScore (dataset : DatasetRecord) (verifiedByNautilus : Bool)
    (integrityVerification : Option IntegrityVerificationResult) : TrustScore :=
  -- Factor 1: Provenance Completeness (0-25 points)
  let timelineEvents := dataset.timeline.length
  let prov := provenanceFactor timelineEvents
  -- Factor 2: Integrity Verification (0-25 points)
  let sha256Verified := match integrityVerification with
    | some v => v.sha256Match
    | none => decide (dataset.hashes.sha256.length > 0)
  let poseidonVerified := match integrityVerification with
    | some v => v.poseidonMatch
    | none => decide (dataset.hashes.poseidon.length > 0)
  let integrityRootValid := match integrityVerification with
    | some v => v.integrityRootValid
    | none => decide (dataset.walrus.integrityRoot.length > 0)
  let integ := integrityFactor sha256Verified poseidonVerified integrityRootValid
  -- Factor 3: Audit Claims (0-25 points)
  let criticalClaims := (dataset.claims.filter (fun c => c.severity == .critical)).length
  let warningClaims := (dataset.claims.filter (fun c => c.severity == .warning)).length
  let infoClaims := (dataset.claims.filter (fun c => c.severity == .info)).length
  let auditScore := auditFactorScore criticalClaims warningClaims infoClaims
  let auditDetails :=
    if criticalClaims == 0 && warningClaims == 0 && infoClaims == 0 then
      "No audit claims (perfect score)"
    else
      s!"Audit claims: {criticalClaims} critical, {warningClaims} warning, {infoClaims} info"
  -- Factor 4: Usage & Consensus (0-25 points)
  let downloads := dataset.metrics.downloads
  let usage := usageFactor downloads
  -- Calculate total score
  let totalScore := prov.1 + integ.1 + auditScore + usage.1
  { datasetId := dataset.id
    score := totalScore
    provenanceScore := prov.1
    integrityScore := integ.1
    auditScore := auditScore
    usageScore := usage.1
    verifiedByNautilus := verifiedByNautilus
    integrityCheck := integrityVerification
    nautilusProof := none
    factors :=
      { provenance := ⟨timelineEvents, prov.1, prov.2⟩
        integrity := ⟨sha256Verified, poseidonVerified, integrityRootValid, integ.1, integ.2⟩
        audit := ⟨criticalClaims, warningClaims, infoClaims, auditScore, auditDetails⟩
        usage := ⟨downloads, usage.1, usage.2⟩ } }

/-! ### Helper lemmas about the scorer -/

theorem provenanceFactor_bounds (n : Nat) :
    0 ≤ (provenanceFactor n).1 ∧ (provenanceFactor n).1 ≤ 25 := by
  unfold provenanceFactor
  split_ifs <;> norm_num

theorem integrityFactor_bounds (a b c : Bool) :
    0 ≤ (integrityFactor a b c).1 ∧ (integrityFactor a b c).1 ≤ 25 := by
  unfold integrityFactor
  split_ifs <;> norm_num

theorem auditFactorScore_bounds (c w i : Nat) :
    0 ≤ auditFactorScore c w i ∧ auditFactorScore c w i ≤ 25 := by
  unfold auditFactorScore
  constructor
  · exact le_max_left 0 _
  · apply max_le (by norm_num)
    omega

theorem usageFactor_bounds (n : Nat) :
    0 ≤ (usageFactor n).1 ∧ (usageFactor n).1 ≤ 25 := by
  unfold usageFactor
  split_ifs <;> norm_num

theorem calculateTrustScore_score (ds : DatasetRecord) (v : Bool)
    (chk : Option IntegrityVerificationResult) :
    (calculateTrustScore ds v chk).score
      = (calculateTrustScore ds v chk).provenanceScore
        + (calculateTrustScore ds v chk).integrityScore
        + (calculateTrustScore ds v chk).auditScore
        + (calculateTrustScore ds v chk).usageScore := rfl

theorem calculateTrustScore_provenanceScore (ds : DatasetRecord) (v : Bool)
    (chk : Option IntegrityVerificationResult) :
    (calculateTrustScore ds v chk).provenanceScore
      = (provenanceFactor ds.timeline.length).1 := rfl

theorem calculateTrustScore_auditScore (ds : DatasetRecord) (v : Bool)
    (chk : Option IntegrityVerificationResult) :
    (calculateTrustScore ds v chk).auditScore
      = auditFactorScore
          (ds.claims.filter (fun c => c.severity == .critical)).length
          (ds.claims.filter (fun c => c.severity == .warning)).length
          (ds.claims.filter (fun c => c.severity == .info)).length := rfl

theorem calculateTrustScore_usageScore (ds : DatasetRecord) (v : Bool)
    (chk : Option IntegrityVerificationResult) :
    (calculateTrustScore ds v chk).usageScore
      = (usageFactor ds.metrics.downloads).1 := rfl

theorem calculateTrustScore_provenanceScore_bounds (ds : DatasetRecord) (v : Bool)
    (chk : Option IntegrityVerificationResult) :
    0 ≤ (calculateTrustScore ds v chk).provenanceScore
    ∧ (calculateTrustScore ds v chk).provenanceScore ≤ 25 := by
  rw [calculateTrustScore_provenanceScore]
  exact provenanceFactor_bounds _

theorem calculateTrustScore_integrityScore_bounds (ds : DatasetRecord) (v : Bool)
    (chk : Option IntegrityVerificationResult) :
    0 ≤ (calculateTrustScore ds v chk).integrityScore
    ∧ (calculateTrustScore ds v chk).integrityScore ≤ 25 := by
  cases chk with
  | none => exact integrityFactor_bounds _ _ _
  | some r => exact integrityFactor_bounds _ _ _

theorem calculateTrustScore_auditScore_bounds (ds : DatasetRecord) (v : Bool)
    (chk : Option IntegrityVerificationResult) :
    0 ≤ (calculateTrustScore ds v chk).auditScore
    ∧ (calculateTrustScore ds v chk).auditScore ≤ 25 := by
  rw [calculateTrustScore_auditScore]
  exact auditFactorScore_bounds _ _ _

theorem calculateTrustScore_usageScore_bounds (ds : DatasetRecord) (v : Bool)
    (chk : Option IntegrityVerificationResult) :
    0 ≤ (calculateTrustScore ds v chk).usageScore
    ∧ (calculateTrustScore ds v chk).usageScore ≤ 25 := by
  rw [calculateTrustScore_usageScore]
  exact usageFactor_bounds _

/-- The four sub-scores and the total are all in bounds and the total is the
exact sum.  Shared workhorse for several claims. -/
theorem calculateTrustScore_wellFormed (ds : DatasetRecord) (v : Bool)
    (chk : Option IntegrityVerificationResult) :
    (calculateTrustScore ds v chk).score
      = (calculateTrustScore ds v chk).provenanceScore
        + (calculateTrustScore ds v chk).integrityScore
        + (calculateTrustScore ds v chk).auditScore
        + (calculateTrustScore ds v chk).usageScore
    ∧ 0 ≤ (calculateTrustScore ds v chk).provenanceScore
    ∧ (calculateTrustScore ds v chk).provenanceScore ≤ 25
    ∧ 0 ≤ (calculateTrustScore ds v chk).integrityScore
    ∧ (calculateTrustScore ds v chk).integrityScore ≤ 25
    ∧ 0 ≤ (calculateTrustScore ds v chk).auditScore
    ∧ (calculateTrustScore ds v chk).auditScore ≤ 25
    ∧ 0 ≤ (calculateTrustScore ds v chk).usageScore
    ∧ (calculateTrustScore ds v chk).usageScore ≤ 25
    ∧ 0 ≤ (calculateTrustScore ds v chk).score
    ∧ (calculateTrustScore ds v chk).score ≤ 100 := by
  have hp := calculateTrustScore_provenanceScore_bounds ds v chk
  have hi := calculateTrustScore_integrityScore_bounds ds v chk
  have ha := calculateTrustScore_auditScore_bounds ds v chk
  have hu := calculateTrustScore_usageScore_bounds ds v chk
  have hscore := calculateTrustScore_score ds v chk
  exact ⟨hscore, hp.1, hp.2, hi.1, hi.2, ha.1, ha.2, hu.1, hu.2, by omega, by omega⟩

/-- C3: For every evidence bundle, enclave flag and optional integrity-check
result, the total trust score is exactly the sum of the four sub-scores, each
sub-score lies in [0, 25], and the total lies in [0, 100]. -/
theorem trust_score_sum_and_bounds (ds : DatasetRecord) (v : Bool)
    (chk : Option IntegrityVerificationResult) :
    (calculateTrustScore ds v chk).score
      = (calculateTrustScore ds v chk).provenanceScore
        + (calculateTrustScore ds v chk).integrityScore
        + (calculateTrustScore ds v chk).auditScore
        + (calculateTrustScore ds v chk).usageScore
    ∧ 0 ≤ (calculateTrustScore ds v chk).provenanceScore
    ∧ (calculateTrustScore ds v chk).provenanceScore ≤ 25
    ∧ 0 ≤ (calculateTrustScore ds v chk).integrityScore
    ∧ (calculateTrustScore ds v chk).integrityScore ≤ 25
    ∧ 0 ≤ (calculateTrustScore ds v chk).auditScore
    ∧ (calculateTrustScore ds v chk).auditScore ≤ 25
    ∧ 0 ≤ (calculateTrustScore ds v chk).usageScore
    ∧ (calculateTrustScore ds v chk).usageScore ≤ 25
    ∧ 0 ≤ (calculateTrustScore ds v chk).score
    ∧ (calculateTrustScore ds v chk).score ≤ 100 :=
  calculateTrustScore_wellFormed ds v chk

/-! ### C7: audit sub-score monotonicity -/

theorem auditFactorScore_antitone {c₁ w₁ i₁ c₂ w₂ i₂ : Nat}
    (hc : c₁ ≤ c₂) (hw : w₁ ≤ w₂) (hi : i₁ ≤ i₂) :
    auditFactorScore c₂ w₂ i₂ ≤ auditFactorScore c₁ w₁ i₁ := by
  unfold auditFactorScore
  apply max_le_max le_rfl
  omega

theorem filter_length_le_append (l : List DatasetClaim) (c : DatasetClaim)
    (p : DatasetClaim → Bool) :
    (l.filter p).length ≤ ((l ++ [c]).filter p).length := by
  rw [List.filter_append, List.length_append]
  exact Nat.le_add_right _ _

/-- C7: Adding any claim to the evidence bundle can only decrease (or keep)
the audit sub-score, the audit sub-score is never negative, and ten critical
claims floor it at exactly 0. -/
theorem audit_score_monotone_nonneg (ds : DatasetRecord) (v : Bool)
    (chk : Option IntegrityVerificationResult) (c : DatasetClaim) :
    (calculateTrustScore { ds with claims := ds.claims ++ [c] } v chk).auditScore
      ≤ (calculateTrustScore ds v chk).auditScore
    ∧ 0 ≤ (calculateTrustScore ds v chk).auditScore
    ∧ auditFactorScore 10 0 0 = 0 := by
  refine ⟨?_, (calculateTrustScore_auditScore_bounds ds v chk).1, by decide⟩
  rw [calculateTrustScore_auditScore, calculateTrustScore_auditScore]
  exact auditFactorScore_antitone
    (filter_length_le_append _ c _) (filter_length_le_append _ c _)
    (filter_length_le_append _ c _)

/-! ### C5: severity encoding consistency across components -/

/-- The ledger-call severity encoding used when filing a claim
(src/backend/src/services/datasetService.ts `addClaim`,
`severityMap = { info: 0, warning: 1, critical: 2 }`). -/
def severityToChain : Severity → Nat
  | .info => 0
  | .warning => 1
  | .critical => 2

/-- `PrismaService.mapSeverity` (src/unnamed/part_003 lines 183-190):
severity stored in the off-chain claim row. -/
def mapSeverity : Severity → String
  | .info => "low"
  | .warning => "medium"
  | .critical => "critical"

/-- `PrismaService.mapSeverityReverse` (src/unnamed/part_003 lines 192-200):
decodes a stored severity string back for score computation, defaulting
to `info`. -/
def mapSeverityReverse (s : String) : Severity :=
  if s = "low" then .info
  else if s = "medium" then .warning
  else if s = "high" then .critical
  else if s = "critical" then .critical
  else .info

/-- `BlockchainIndexer.processClaimEvent` severity decoding
(src/backend/src/services/trustOracle.ts, `severityMap = ['low', 'medium',
'critical']` with `|| 'medium'` fallback). -/
def indexerSeverityDecode (n : Nat) : String :=
  if n = 0 then "low"
  else if n = 1 then "medium"
  else if n = 2 then "critical"
  else "medium"

/-- An evidence bundle whose claims have been written to the projection store
and read back (`mapSeverity` then `mapSeverityReverse` on each severity). -/
def storedRoundTrip (ds : DatasetRecord) : DatasetRecord :=
  { ds with
    claims := ds.claims.map fun c =>
      { c with severity := mapSeverityReverse (mapSeverity c.severity) } }

theorem storedRoundTrip_claims (ds : DatasetRecord) :
    (storedRoundTrip ds).claims = ds.claims := by
  show ds.claims.map (fun c =>
    { c with severity := mapSeverityReverse (mapSeverity c.severity) }) = ds.claims
  induction ds.claims with
  | nil => rfl
  | cons c rest ih =>
    simp only [List.map_cons, ih, List.cons.injEq, and_true]
    cases c with
    | mk id role statement evidenceUri severity createdAt resolved =>
      cases severity <;> rfl

/-- C5: the severity encoding info=0/warning=1/critical=2 is consistent across
the ledger filing path, the off-chain stored record and the scorer: the
off-chain store round-trip is the identity, the ledger-encode/indexer-decode
round-trip is the identity, and re-reading stored claims leaves the audit
sub-score unchanged. -/
theorem severity_encoding_consistent :
    (∀ s : Severity, mapSeverityReverse (mapSeverity s) = s)
    ∧ (∀ s : Severity,
        mapSeverityReverse (indexerSeverityDecode (severityToChain s)) = s)
    ∧ severityToChain .info = 0
    ∧ severityToChain .warning = 1
    ∧ severityToChain .critical = 2
    ∧ (∀ (ds : DatasetRecord) (v : Bool)
        (chk : Option IntegrityVerificationResult),
        (calculateTrustScore (storedRoundTrip ds) v chk).auditScore
          = (calculateTrustScore ds v chk).auditScore) := by
  refine ⟨fun s => by cases s <;> rfl, fun s => by cases s <;> rfl, rfl, rfl, rfl, ?_⟩
  intro ds v chk
  rw [calculateTrustScore_auditScore, calculateTrustScore_auditScore]
  have h : (storedRoundTrip ds).claims = ds.claims := storedRoundTrip_claims ds
  simp only [storedRoundTrip] at h ⊢
  rw [h]

/-! ### C9: concrete scoring scenario -/

/-- A demo evidence bundle: 5 timeline events, zero claims, 4 downloads
(spec §8 scenario). -/
def demoDataset : DatasetRecord :=
  { id := "dataset-demo"
    ownerAddress := "0xowner"
    title := "Demo"
    description := "Demo dataset"
    walrus := { blobId := "blob-1", integrityRoot := "root-1", proof := "p", sizeBytes := 64 }
    hashes := { sha256 := "aa", poseidon := "bb" }
    status := "certified"
    certificateId := some "0xcert"
    metrics := { downloads := 4, revenueWal := 0, disputes := 0 }
    accessPolicy := { policyType := .publicAccess, minStake := none, allowedTokens := none }
    claims := []
    timeline :=
      [ ⟨"e1", "upload", "Dataset uploaded to Walrus"⟩
      , ⟨"e2", "certificate_minted", "Certificate minted on Sui"⟩
      , ⟨"e3", "access_request", "r1"⟩
      , ⟨"e4", "access_request", "r2"⟩
      , ⟨"e5", "access_request", "r3"⟩ ] }

/-- Integrity check with both digests matching and the root valid. -/
def demoCheck : IntegrityVerificationResult :=
  { sha256Match := true, poseidonMatch := true, integrityRootValid := true
    walrusLatencyMs := some 10 }

/-- C9: a bundle with 5 timeline events, matching primary+secondary digests,
valid integrity root, 0 claims and 4 downloads scores
provenance=25, integrity=25, audit=25, usage=5, total=80. -/
theorem demo_scenario_scores :
    (calculateTrustScore demoDataset false (some demoCheck)).provenanceScore = 25
    ∧ (calculateTrustScore demoDataset false (some demoCheck)).integrityScore = 25
    ∧ (calculateTrustScore demoDataset false (some demoCheck)).auditScore = 25
    ∧ (calculateTrustScore demoDataset false (some demoCheck)).usageScore = 5
    ∧ (calculateTrustScore demoDataset false (some demoCheck)).score = 80 := by
  refine ⟨rfl, rfl, by decide, rfl, by decide⟩

/-! ### Integrity verifier (`verifyDataIntegrity`, `verifyIntegrityRoot`) -/

/-- Outcome of one integrity-root probe (`fetch(url, { headers })` inside the
`verifyIntegrityRoot` loop): a rejected promise (caught and logged, the loop
continues) or an HTTP response with its `ok` flag. -/
inductive ProbeOutcome
  | netErr
  | resp (ok : Bool)
deriving DecidableEq, Repr

/-- Outcome of the blob fetch in `verifyDataIntegrity`: a rejected promise
(timeout/DNS), or a response with its `ok` flag and body; a `none` body models
`arrayBuffer()` rejecting (malformed body). -/
inductive FetchOutcome
  | netErr
  | resp (ok : Bool) (body : Option (List Nat))
deriving DecidableEq, Repr

/-- Environment for one `verifyDataIntegrity` run: the network outcomes, the
hash primitives (node `crypto`, external) and the measured latency
(`Date.now() - start`, external clock). -/
structure VerifierEnv where
  blobFetch : FetchOutcome
  rootProbes : List ProbeOutcome
  sha256Hex : List Nat → String
  sha512TruncHex : List Nat → String
  latencyMs : Nat

/-- The `for (const url of candidateUrls)` loop of `verifyIntegrityRoot`
(trustOracle.ts lines 359-372) plus its fallback (line 375): an ok response
returns `true` immediately; a network error or non-ok response moves on to the
next candidate; after the loop the root counts as valid iff it is non-empty. -/
def probeLoop (integrityRoot : String) : List ProbeOutcome → Bool
  | [] => decide (integrityRoot.length > 0)
  | .netErr :: rest => probeLoop integrityRoot rest
  | .resp ok :: rest => if ok then true else probeLoop integrityRoot rest

/-- `verifyIntegrityRoot` (trustOracle.ts lines 346-376). -/
def verifyIntegrityRoot (integrityRoot : String) (probes : List ProbeOutcome) : Bool :=
  if integrityRoot = "" then false
  else probeLoop integrityRoot probes

/-- The `try` body of `verifyDataIntegrity` (trustOracle.ts lines 263-297):
any throw (network failure, non-2xx status, malformed body) surfaces as
`.error`. -/
def verifyDataIntegrityAux (env : VerifierEnv) (dataset : DatasetRecord) :
    Except String IntegrityVerificationResult :=
  match env.blobFetch with
  | .netErr => .error "fetch rejected"
  | .resp ok body =>
    if !ok then .error "Walrus gateway responded with non-ok status"
    else
      match body with
      | none => .error "malformed body"
      | some buffer =>
        let sha256 := env.sha256Hex buffer
        let poseidon := env.sha512TruncHex buffer
        let sha256Match :=
          if dataset.hashes.sha256.length > 0 then sha256 == dataset.hashes.sha256
          else false
        let poseidonMatch :=
          if dataset.hashes.poseidon.length > 0 then poseidon == dataset.hashes.poseidon
          else false
        let integrityRootValid :=
          verifyIntegrityRoot dataset.walrus.integrityRoot env.rootProbes
        .ok { sha256Match := sha256Match, poseidonMatch := poseidonMatch
              integrityRootValid := integrityRootValid
              walrusLatencyMs := some env.latencyMs }

/-- `verifyDataIntegrity` (trustOracle.ts lines 254-311): the catch branch
turns any failure into an all-false result instead of re-raising. -/
def verifyDataIntegrity (env : VerifierEnv) (dataset : DatasetRecord) :
    IntegrityVerificationResult :=
  match verifyDataIntegrityAux env dataset with
  | .ok r => r
  | .error _ =>
    { sha256Match := false, poseidonMatch := false, integrityRootValid := false
      walrusLatencyMs := none }

/-- The blob fetch failed at some network step: rejected promise, non-2xx
status, or malformed body. -/
def fetchFailed : FetchOutcome → Bool
  | .netErr => true
  | .resp ok body => !ok || body.isNone

/-! ### C6: network failure degrades to all-false, and the scorer still works -/

/-- C6: when any network step of integrity verification fails (fetch rejects,
non-2xx status, malformed body), `verifyDataIntegrity` returns the all-false
result — failure is data, not an exception — and the scorer applied to that
result still produces a well-formed TrustScore (total = sum of sub-scores,
each sub-score in [0, 25]). -/
theorem verify_integrity_network_failure (env : VerifierEnv)
    (ds : DatasetRecord) (v : Bool) (h : fetchFailed env.blobFetch = true) :
    verifyDataIntegrity env ds
      = { sha256Match := false, poseidonMatch := false
          integrityRootValid := false, walrusLatencyMs := none }
    ∧ ((calculateTrustScore ds v (some (verifyDataIntegrity env ds))).score
        = (calculateTrustScore ds v (some (verifyDataIntegrity env ds))).provenanceScore
          + (calculateTrustScore ds v (some (verifyDataIntegrity env ds))).integrityScore
          + (calculateTrustScore ds v (some (verifyDataIntegrity env ds))).auditScore
          + (calculateTrustScore ds v (some (verifyDataIntegrity env ds))).usageScore)
    ∧ 0 ≤ (calculateTrustScore ds v (some (verifyDataIntegrity env ds))).score
    ∧ (calculateTrustScore ds v (some (verifyDataIntegrity env ds))).score ≤ 100
    ∧ (calculateTrustScore ds v (some (verifyDataIntegrity env ds))).integrityScore = 0 := by
  have hfail : verifyDataIntegrity env ds
      = { sha256Match := false, poseidonMatch := false
          integrityRootValid := false, walrusLatencyMs := none } := by
    unfold verifyDataIntegrity verifyDataIntegrityAux
    cases hb : env.blobFetch with
    | netErr => rfl
    | resp ok body =>
      rw [hb] at h
      simp only [fetchFailed] at h
      cases ok with
      | false => rfl
      | true =>
        cases body with
        | none => rfl
        | some buf => simp at h
  have hwf := calculateTrustScore_wellFormed ds v (some (verifyDataIntegrity env ds))
  refine ⟨hfail, hwf.1, hwf.2.2.2.2.2.2.2.2.2.1, hwf.2.2.2.2.2.2.2.2.2.2, ?_⟩
  rw [hfail]
  rfl

/-- Witness for C6 at a concrete environment whose blob fetch times out. -/
theorem verify_integrity_network_failure_witness :
    (let env : VerifierEnv :=
      { blobFetch := .netErr, rootProbes := [], sha256Hex := fun _ => ""
        sha512TruncHex := fun _ => "", latencyMs := 0 }
     verifyDataIntegrity env demoDataset
      = { sha256Match := false, poseidonMatch := false
          integrityRootValid := false, walrusLatencyMs := none }
    ∧ ((calculateTrustScore demoDataset false (some (verifyDataIntegrity env demoDataset))).score
        = (calculateTrustScore demoDataset false (some (verifyDataIntegrity env demoDataset))).provenanceScore
          + (calculateTrustScore demoDataset false (some (verifyDataIntegrity env demoDataset))).integrityScore
          + (calculateTrustScore demoDataset false (some (verifyDataIntegrity env demoDataset))).auditScore
          + (calculateTrustScore demoDataset false (some (verifyDataIntegrity env demoDataset))).usageScore)
    ∧ 0 ≤ (calculateTrustScore demoDataset false (some (verifyDataIntegrity env demoDataset))).score
    ∧ (calculateTrustScore demoDataset false (some (verifyDataIntegrity env demoDataset))).score ≤ 100
    ∧ (calculateTrustScore demoDataset false (some (verifyDataIntegrity env demoDataset))).integrityScore = 0) :=
  verify_integrity_network_failure _ demoDataset false (by decide)

/-! ### C8: integrity-root probing and the degraded fallback -/

/-- C8 (amended): the integrity-root check walks the candidate endpoints in
order — a successful response ends the loop with `true` no matter what follows,
and a network error or non-2xx response just moves to the next candidate — and
when every probe fails at the network level and the recorded root is non-empty,
the root is reported valid (degraded path). -/
theorem integrity_root_probe_order (root : String)
    (rest probes : List ProbeOutcome) (h : 0 < root.length) :
    verifyIntegrityRoot root (.resp true :: rest) = true
    ∧ (∀ ps, verifyIntegrityRoot root (.netErr :: ps) = verifyIntegrityRoot root ps)
    ∧ (∀ ps, verifyIntegrityRoot root (.resp false :: ps) = verifyIntegrityRoot root ps)
    ∧ ((∀ p ∈ probes, p = .netErr) → verifyIntegrityRoot root probes = true) := by
  have hne : root ≠ "" := by
    intro he
    subst he
    exact absurd h (by decide)
  refine ⟨?_, ?_, ?_, ?_⟩
  · simp [verifyIntegrityRoot, hne, probeLoop]
  · intro ps
    simp [verifyIntegrityRoot, hne, probeLoop]
  · intro ps
    simp [verifyIntegrityRoot, hne, probeLoop]
  intro hall
  simp only [verifyIntegrityRoot, if_neg hne]
  induction probes with
  | nil => exact decide_eq_true h
  | cons p ps ih =>
    have hp : p = .netErr := hall p (List.mem_cons_self p ps)
    subst hp
    exact ih (fun q hq => hall q (List.mem_cons_of_mem _ hq))

/-- Witness for C8 (amended) at root "root-1" with two net-failing probes. -/
theorem integrity_root_probe_order_witness :
    verifyIntegrityRoot "root-1" (.resp true :: []) = true
    ∧ (∀ ps, verifyIntegrityRoot "root-1" (.netErr :: ps)
        = verifyIntegrityRoot "root-1" ps)
    ∧ (∀ ps, verifyIntegrityRoot "root-1" (.resp false :: ps)
        = verifyIntegrityRoot "root-1" ps)
    ∧ ((∀ p ∈ [ProbeOutcome.netErr, ProbeOutcome.netErr], p = .netErr) →
        verifyIntegrityRoot "root-1" [.netErr, .netErr] = true) :=
  integrity_root_probe_order "root-1" [] [.netErr, .netErr] (by decide)

/-- An environment whose first integrity-root probe succeeds (actively
verified root). -/
def activeRootEnv : VerifierEnv :=
  { blobFetch := .resp true (some [1, 2, 3])
    rootProbes := [.resp true, .resp true]
    sha256Hex := fun _ => "aa"
    sha512TruncHex := fun _ => "bb"
    latencyMs := 7 }

/-- The same environment except every integrity-root probe fails at the
network level (degraded "assumed valid" path). -/
def degradedRootEnv : VerifierEnv :=
  { activeRootEnv with rootProbes := [.netErr, .netErr] }

/-- C8 counterexample: with a non-empty recorded root, a run whose root probe
actively succeeds and a run whose probes all fail at the network level return
the *identical* IntegrityCheckResult, so the returned result does not let the
caller distinguish the assumed-valid outcome from an actively verified one. -/
theorem integrity_root_indistinguishable_cex :
    degradedRootEnv.rootProbes = [.netErr, .netErr]
    ∧ activeRootEnv.rootProbes = [.resp true, .resp true]
    ∧ demoDataset.walrus.integrityRoot ≠ ""
    ∧ verifyIntegrityRoot demoDataset.walrus.integrityRoot
        degradedRootEnv.rootProbes = true
    ∧ verifyDataIntegrity activeRootEnv demoDataset
        = verifyDataIntegrity degradedRootEnv demoDataset := by
  exact ⟨rfl, rfl, by decide, by decide, by decide⟩

/-! ### Projection store (Prisma tables) and the ledger indexer -/

/-- A row of the `Dataset` table (Prisma schema; fields used by the indexer
and by `saveTrustScore`).  `id` is the internal primary key, `datasetId` the
business key. -/
structure DatasetRow where
  id : Nat
  datasetId : String
  name : String
  description : String
  owner : String
  walrusBlobId : String
  status : String
  downloads : Nat
  totalRevenue : Nat
  trustScore : Option Int
  trustFactors : Option TrustScore
deriving DecidableEq, Repr

/-- A row of the `AccessRecord` table. -/
structure AccessRow where
  datasetRef : Nat
  requester : String
  purpose : String
  stakeAmount : Nat
  txHash : String
deriving DecidableEq, Repr

/-- A row of the `TrustScoreHistory` table. -/
structure TrustHistoryRow where
  datasetRef : Nat
  score : Int
  provenanceScore : Int
  integrityScore : Int
  auditScore : Int
  usageScore : Int
  verifiedByNautilus : Bool
  factors : TrustScore
deriving DecidableEq, Repr

/-- The off-chain projection store.  `nextId` models the generated primary
key for `prisma.dataset.create`. -/
structure ProjectionState where
  datasets : List DatasetRow
  accessRecords : List AccessRow
  trustHistory : List TrustHistoryRow
  nextId : Nat
deriving DecidableEq, Repr

/-- An `AccessGranted` ledger event as seen by the indexer
(trustOracle.ts `AccessGrantedEvent`); `txHash` is `event.id.txDigest`, the
transaction identity, and `stake_amount` is the parsed numeric stake. -/
structure AccessGrantedEvent where
  dataset_id : String
  requester : String
  walrus_blob : String
  purpose : String
  stake_amount : Nat
  txHash : String
deriving DecidableEq, Repr

/-- Generic fact: `find?` over a mapped list, when the map preserves the
predicate, is the mapped `find?`. -/
theorem find?_map_of_pred {α : Type} (g : α → α) (p : α → Bool) (l : List α)
    (hg : ∀ a, p (g a) = p a) :
    (l.map g).find? p = (l.find? p).map g := by
  induction l with
  | nil => rfl
  | cons a rest ih =>
    cases hp : p a with
    | true =>
      rw [List.map_cons, List.find?_cons_of_pos _ (by rw [hg]; exact hp),
        List.find?_cons_of_pos _ hp]
      rfl
    | false =>
      rw [List.map_cons, List.find?_cons_of_neg _ (by rw [hg]; simp [hp]),
        List.find?_cons_of_neg _ (by simp [hp]), ih]

/-- Generic fact: `find?` over an append whose left part has no match. -/
theorem find?_append_of_none {α : Type} (l₁ l₂ : List α) (p : α → Bool)
    (h : l₁.find? p = none) : (l₁ ++ l₂).find? p = l₂.find? p := by
  induction l₁ with
  | nil => rfl
  | cons a rest ih =>
    cases hp : p a with
    | true => rw [List.find?_cons_of_pos _ hp] at h; exact absurd h (by simp)
    | false =>
      rw [List.find?_cons_of_neg _ (by simp [hp])] at h
      rw [List.cons_append, List.find?_cons_of_neg _ (by simp [hp]), ih h]

/-- Generic fact: `find?` over an append whose left part has a match. -/
theorem find?_append_of_some {α : Type} (l₁ l₂ : List α) (p : α → Bool) (a : α)
    (h : l₁.find? p = some a) : (l₁ ++ l₂).find? p = some a := by
  induction l₁ with
  | nil => exact absurd h (by simp)
  | cons b rest ih =>
    cases hp : p b with
    | true =>
      rw [List.find?_cons_of_pos _ hp] at h
      rw [List.cons_append, List.find?_cons_of_pos _ hp]
      exact h
    | false =>
      rw [List.find?_cons_of_neg _ (by simp [hp])] at h
      rw [List.cons_append, List.find?_cons_of_neg _ (by simp [hp]), ih h]

/-- The counter update applied by the indexer to the parent dataset row
(`prisma.dataset.update` with `downloads/totalRevenue: { increment: ... }`). -/
def bumpCounters (ev : AccessGrantedEvent) (targetId : Nat) (d : DatasetRow) :
    DatasetRow :=
  if d.id == targetId then
    { d with downloads := d.downloads + 1
             totalRevenue := d.totalRevenue + ev.stake_amount }
  else d

theorem bumpCounters_datasetId (ev : AccessGrantedEvent) (i : Nat)
    (d : DatasetRow) : (bumpCounters ev i d).datasetId = d.datasetId := by
  unfold bumpCounters
  split <;> rfl

/-- Second half of `BlockchainIndexer.processAccessEvent` (trustOracle.ts
lines 510-537): dedup by transaction identity, then insert the access row and
bump the parent counters. -/
def applyAccessEvent (st1 : ProjectionState) (ev : AccessGrantedEvent)
    (dataset : DatasetRow) : ProjectionState :=
  match st1.accessRecords.find? (fun r => r.txHash == ev.txHash) with
  | some _ => st1
  | none =>
    { st1 with
      accessRecords := st1.accessRecords ++
        [{ datasetRef := dataset.id, requester := ev.requester
           purpose := ev.purpose, stakeAmount := ev.stake_amount
           txHash := ev.txHash }]
      datasets := st1.datasets.map (bumpCounters ev dataset.id) }

/-- The placeholder dataset row materialized by the indexer when the event's
business key has no row yet (trustOracle.ts lines 495-507; `downloads` and
`totalRevenue` start at their schema defaults of 0). -/
def placeholderRow (st : ProjectionState) (ev : AccessGrantedEvent) : DatasetRow :=
  { id := st.nextId, datasetId := ev.dataset_id, name := ev.dataset_id
    description := "Indexed from blockchain", owner := ev.requester
    walrusBlobId := ev.walrus_blob, status := "certified"
    downloads := 0, totalRevenue := 0, trustScore := none, trustFactors := none }

/-- `BlockchainIndexer.processAccessEvent` (trustOracle.ts lines 485-541):
find-or-create the dataset row by business key, then apply the deduplicated
event. -/
def processAccessEvent (st : ProjectionState) (ev : AccessGrantedEvent) :
    ProjectionState :=
  match st.datasets.find? (fun d => d.datasetId == ev.dataset_id) with
  | some dataset => applyAccessEvent st ev dataset
  | none =>
    let d := placeholderRow st ev
    applyAccessEvent
      { st with datasets := st.datasets ++ [d], nextId := st.nextId + 1 } ev d

theorem processAccessEvent_eq_some (st : ProjectionState) (ev : AccessGrantedEvent)
    (d : DatasetRow)
    (hd : st.datasets.find? (fun r => r.datasetId == ev.dataset_id) = some d) :
    processAccessEvent st ev = applyAccessEvent st ev d := by
  unfold processAccessEvent
  rw [hd]

theorem processAccessEvent_eq_none (st : ProjectionState) (ev : AccessGrantedEvent)
    (hd : st.datasets.find? (fun r => r.datasetId == ev.dataset_id) = none) :
    processAccessEvent st ev
      = applyAccessEvent
          { st with datasets := st.datasets ++ [placeholderRow st ev]
                    nextId := st.nextId + 1 } ev (placeholderRow st ev) := by
  unfold processAccessEvent
  rw [hd]

theorem applyAccessEvent_of_seen (st1 : ProjectionState) (ev : AccessGrantedEvent)
    (d : DatasetRow) (r : AccessRow)
    (ht : st1.accessRecords.find? (fun r => r.txHash == ev.txHash) = some r) :
    applyAccessEvent st1 ev d = st1 := by
  unfold applyAccessEvent
  rw [ht]

theorem applyAccessEvent_of_new (st1 : ProjectionState) (ev : AccessGrantedEvent)
    (d : DatasetRow)
    (ht : st1.accessRecords.find? (fun r => r.txHash == ev.txHash) = none) :
    applyAccessEvent st1 ev d
      = { st1 with
          accessRecords := st1.accessRecords ++
            [{ datasetRef := d.id, requester := ev.requester
               purpose := ev.purpose, stakeAmount := ev.stake_amount
               txHash := ev.txHash }]
          datasets := st1.datasets.map (bumpCounters ev d.id) } := by
  unfold applyAccessEvent
  rw [ht]

theorem bumpCounters_pred (ev : AccessGrantedEvent) (i : Nat) (a : DatasetRow) :
    ((bumpCounters ev i a).datasetId == ev.dataset_id)
      = (a.datasetId == ev.dataset_id) := by
  rw [bumpCounters_datasetId]

/-- After one application of the event, the transaction identity always has a
projection row. -/
theorem applyAccessEvent_tx_seen (st1 : ProjectionState) (ev : AccessGrantedEvent)
    (d : DatasetRow) :
    ∃ r, (applyAccessEvent st1 ev d).accessRecords.find?
      (fun r => r.txHash == ev.txHash) = some r := by
  cases ht : st1.accessRecords.find? (fun r => r.txHash == ev.txHash) with
  | some r =>
    rw [applyAccessEvent_of_seen st1 ev d r ht]
    exact ⟨r, ht⟩
  | none =>
    rw [applyAccessEvent_of_new st1 ev d ht]
    refine ⟨{ datasetRef := d.id, requester := ev.requester
              purpose := ev.purpose, stakeAmount := ev.stake_amount
              txHash := ev.txHash }, ?_⟩
    show (st1.accessRecords ++ [_]).find? _ = _
    rw [find?_append_of_none _ _ _ ht]
    exact List.find?_cons_of_pos _ (by simp)

/-- After one application of the event, the event's business key always has a
dataset row. -/
theorem applyAccessEvent_ds_seen (st1 : ProjectionState) (ev : AccessGrantedEvent)
    (d dd : DatasetRow)
    (hdd : st1.datasets.find? (fun r => r.datasetId == ev.dataset_id) = some dd) :
    ∃ e, (applyAccessEvent st1 ev d).datasets.find?
      (fun r => r.datasetId == ev.dataset_id) = some e := by
  cases ht : st1.accessRecords.find? (fun r => r.txHash == ev.txHash) with
  | some r =>
    rw [applyAccessEvent_of_seen st1 ev d r ht]
    exact ⟨dd, hdd⟩
  | none =>
    rw [applyAccessEvent_of_new st1 ev d ht]
    refine ⟨bumpCounters ev d.id dd, ?_⟩
    show (st1.datasets.map _).find? _ = _
    rw [find?_map_of_pred _ _ _ (bumpCounters_pred ev d.id), hdd]
    rfl

/-- Idempotence of the indexer's per-event processing: re-applying an
`AccessGranted` event is a no-op on the projection. -/
theorem processAccessEvent_idem (st : ProjectionState) (ev : AccessGrantedEvent) :
    processAccessEvent (processAccessEvent st ev) ev = processAccessEvent st ev := by
  have hds : ∃ e, (processAccessEvent st ev).datasets.find?
      (fun r => r.datasetId == ev.dataset_id) = some e := by
    cases hd : st.datasets.find? (fun r => r.datasetId == ev.dataset_id) with
    | some d =>
      rw [processAccessEvent_eq_some st ev d hd]
      exact applyAccessEvent_ds_seen st ev d d hd
    | none =>
      rw [processAccessEvent_eq_none st ev hd]
      refine applyAccessEvent_ds_seen _ ev _ (placeholderRow st ev) ?_
      show (st.datasets ++ [placeholderRow st ev]).find? _ = _
      rw [find?_append_of_none _ _ _ hd]
      exact List.find?_cons_of_pos _ (by simp [placeholderRow])
  have htx : ∃ r, (processAccessEvent st ev).accessRecords.find?
      (fun r => r.txHash == ev.txHash) = some r := by
    cases hd : st.datasets.find? (fun r => r.datasetId == ev.dataset_id) with
    | some d =>
      rw [processAccessEvent_eq_some st ev d hd]
      exact applyAccessEvent_tx_seen st ev d
    | none =>
      rw [processAccessEvent_eq_none st ev hd]
      exact applyAccessEvent_tx_seen _ ev _
  obtain ⟨e, he⟩ := hds
  obtain ⟨r, hr⟩ := htx
  rw [processAccessEvent_eq_some _ ev e he, applyAccessEvent_of_seen _ ev e r hr]

/-- C2: applying an `AccessGranted` event twice (same transaction identity)
leaves the projection identical to applying it once — exactly one AccessRecord
row carries that transaction identity, and the parent dataset's `downloads`
and `totalRevenue` counters are incremented exactly once. -/
theorem access_event_dedup (st : ProjectionState) (ev : AccessGrantedEvent)
    (d : DatasetRow)
    (hd : st.datasets.find? (fun r => r.datasetId == ev.dataset_id) = some d)
    (hno : st.accessRecords.find? (fun r => r.txHash == ev.txHash) = none) :
    processAccessEvent (processAccessEvent st ev) ev = processAccessEvent st ev
    ∧ ((processAccessEvent (processAccessEvent st ev) ev).accessRecords.filter
        (fun r => r.txHash == ev.txHash)).length = 1
    ∧ (processAccessEvent (processAccessEvent st ev) ev).datasets.find?
        (fun r => r.datasetId == ev.dataset_id)
      = some { d with downloads := d.downloads + 1
                      totalRevenue := d.totalRevenue + ev.stake_amount } := by
  have hidem := processAccessEvent_idem st ev
  have hone : processAccessEvent st ev
      = { st with
          accessRecords := st.accessRecords ++
            [{ datasetRef := d.id, requester := ev.requester
               purpose := ev.purpose, stakeAmount := ev.stake_amount
               txHash := ev.txHash }]
          datasets := st.datasets.map (bumpCounters ev d.id) } := by
    rw [processAccessEvent_eq_some st ev d hd, applyAccessEvent_of_new st ev d hno]
  have hfilter : st.accessRecords.filter (fun r => r.txHash == ev.txHash) = [] := by
    rw [List.filter_eq_nil_iff]
    intro a ha
    have := List.find?_eq_none.mp hno a ha
    simpa using this
  refine ⟨hidem, ?_, ?_⟩
  · rw [hidem, hone]
    show ((st.accessRecords ++ [_]).filter _).length = 1
    rw [List.filter_append, hfilter]
    simp
  · rw [hidem, hone]
    show (st.datasets.map _).find? _ = _
    rw [find?_map_of_pred _ _ _ (bumpCounters_pred ev d.id), hd]
    show some (bumpCounters ev d.id d) = _
    unfold bumpCounters
    rw [if_pos (by simp)]

/-- Witness for C2: one dataset row, empty access table, a concrete event. -/
theorem access_event_dedup_witness :
    (let row : DatasetRow :=
      { id := 1, datasetId := "dataset-w", name := "w", description := ""
        owner := "0xo", walrusBlobId := "blob-w", status := "certified"
        downloads := 3, totalRevenue := 50, trustScore := none
        trustFactors := none }
     let st : ProjectionState :=
      { datasets := [row], accessRecords := [], trustHistory := [], nextId := 2 }
     let ev : AccessGrantedEvent :=
      { dataset_id := "dataset-w", requester := "0xr", walrus_blob := "blob-w"
        purpose := "train", stake_amount := 7, txHash := "0xtx1" }
     processAccessEvent (processAccessEvent st ev) ev = processAccessEvent st ev
    ∧ ((processAccessEvent (processAccessEvent st ev) ev).accessRecords.filter
        (fun r => r.txHash == ev.txHash)).length = 1
    ∧ (processAccessEvent (processAccessEvent st ev) ev).datasets.find?
        (fun r => r.datasetId == ev.dataset_id)
      = some { row with downloads := row.downloads + 1
                        totalRevenue := row.totalRevenue + ev.stake_amount }) :=
  access_event_dedup _ _ _ (by decide) (by decide)

/-! ### C10: `PrismaService.saveTrustScore` -/

/-- The history row appended by `saveTrustScore`
(`prisma.trustScoreHistory.create`, src/unnamed/part_003 lines 232-243). -/
def historyRowOf (internalId : Nat) (ts : TrustScore) : TrustHistoryRow :=
  { datasetRef := internalId, score := ts.score
    provenanceScore := ts.provenanceScore, integrityScore := ts.integrityScore
    auditScore := ts.auditScore, usageScore := ts.usageScore
    verifiedByNautilus := ts.verifiedByNautilus, factors := ts }

/-- The snapshot update applied to the dataset row (`prisma.dataset.update`,
src/unnamed/part_003 lines 224-231; `lastVerifiedAt` is a wall-clock field and
is modelled out). -/
def snapshotUpdate (ts : TrustScore) (targetId : Nat) (r : DatasetRow) :
    DatasetRow :=
  if r.id == targetId then
    { r with trustScore := some ts.score, trustFactors := some ts }
  else r

theorem snapshotUpdate_datasetId (ts : TrustScore) (i : Nat) (r : DatasetRow) :
    (snapshotUpdate ts i r).datasetId = r.datasetId := by
  unfold snapshotUpdate
  split <;> rfl

/-- `PrismaService.saveTrustScore` (src/unnamed/part_003 lines 214-245):
look up the dataset row by business id; silently return when absent; otherwise
update the latest-snapshot fields and append one history row, both inside one
`prisma.$transaction` (modelled as a single state transition, so both writes
commit together or not at all). -/
def saveTrustScore (st : ProjectionState) (datasetId : String) (ts : TrustScore) :
    ProjectionState :=
  match st.datasets.find? (fun d => d.datasetId == datasetId) with
  | none => st
  | some dataset =>
    { st with
      datasets := st.datasets.map (snapshotUpdate ts dataset.id)
      trustHistory := st.trustHistory ++ [historyRowOf dataset.id ts] }

/-- C10: saving a trust score against a missing dataset row is a silent no-op
(nothing persisted), and against an existing row it updates the snapshot
fields and appends exactly one history row, atomically, leaving the other
tables untouched. -/
theorem saveTrustScore_spec (st : ProjectionState) (busId : String)
    (ts : TrustScore) :
    (st.datasets.find? (fun d => d.datasetId == busId) = none →
      saveTrustScore st busId ts = st)
    ∧ (∀ d, st.datasets.find? (fun d => d.datasetId == busId) = some d →
        (saveTrustScore st busId ts).trustHistory
            = st.trustHistory ++ [historyRowOf d.id ts]
        ∧ (saveTrustScore st busId ts).datasets.find?
              (fun r => r.datasetId == busId)
            = some { d with trustScore := some ts.score, trustFactors := some ts }
        ∧ (saveTrustScore st busId ts).accessRecords = st.accessRecords
        ∧ (saveTrustScore st busId ts).datasets.length = st.datasets.length) := by
  constructor
  · intro hnone
    unfold saveTrustScore
    rw [hnone]
  · intro d hd
    have hsave : saveTrustScore st busId ts
        = { st with
            datasets := st.datasets.map (snapshotUpdate ts d.id)
            trustHistory := st.trustHistory ++ [historyRowOf d.id ts] } := by
      unfold saveTrustScore
      rw [hd]
    refine ⟨by rw [hsave], ?_, by rw [hsave], by rw [hsave]; simp⟩
    rw [hsave]
    show (st.datasets.map _).find? _ = _
    have hpred : ∀ r, ((snapshotUpdate ts d.id r).datasetId == busId)
        = (r.datasetId == busId) := by
      intro r
      rw [snapshotUpdate_datasetId]
    rw [find?_map_of_pred _ _ _ hpred, hd]
    show some (snapshotUpdate ts d.id d) = _
    unfold snapshotUpdate
    rw [if_pos (by simp)]

/-- Concrete dataset row used by the C10 witness. -/
def wRow : DatasetRow :=
  { id := 1, datasetId := "dataset-w", name := "w", description := ""
    owner := "0xo", walrusBlobId := "blob-w", status := "certified"
    downloads := 0, totalRevenue := 0, trustScore := none
    trustFactors := none }

/-- Concrete projection state used by the C10 witness. -/
def wState : ProjectionState :=
  { datasets := [wRow], accessRecords := [], trustHistory := [], nextId := 2 }

/-- Concrete trust score used by the C10 witness. -/
def wTs : TrustScore := calculateTrustScore demoDataset false (some demoCheck)

/-- Witness for C10: a missing business id is a no-op; an existing one gets a
snapshot update plus one history row. -/
theorem saveTrustScore_spec_witness :
    saveTrustScore wState "no-such-dataset" wTs = wState
    ∧ ((saveTrustScore wState "dataset-w" wTs).trustHistory
        = wState.trustHistory ++ [historyRowOf wRow.id wTs]
      ∧ (saveTrustScore wState "dataset-w" wTs).datasets.find?
            (fun r => r.datasetId == "dataset-w")
          = some { wRow with trustScore := some wTs.score, trustFactors := some wTs }
      ∧ (saveTrustScore wState "dataset-w" wTs).accessRecords = wState.accessRecords
      ∧ (saveTrustScore wState "dataset-w" wTs).datasets.length
          = wState.datasets.length) :=
  ⟨(saveTrustScore_spec wState "no-such-dataset" wTs).1 (by decide),
   (saveTrustScore_spec wState "dataset-w" wTs).2 wRow (by decide)⟩

/-! ### C4: stake gate, off-chain and on-chain -/

/-- Input to the off-chain access path (datasetService.ts
`AccessRequestInput`). -/
structure AccessRequestInput where
  datasetId : String
  requester : String
  purpose : String
  stakeAmount : Option Nat
  tokenHoldings : Option (List String)
deriving DecidableEq, Repr

/-- The payload `recordAccess` hands to `suiClient.recordAccess` when the
gates pass; an `Except.error` means the function threw before this ledger
submission was constructed. -/
structure RecordAccessTx where
  datasetId : String
  requester : String
  purpose : String
  certificateId : Option String
  stakeAmount : Option Nat
deriving DecidableEq, Repr

/-- `recordAccess` (src/backend/src/services/datasetService.ts lines 229-249),
up to the ledger submission: the stake gate and token gate run first and throw
before any ledger write is attempted. -/
def recordAccess (dataset : DatasetRecord) (input : AccessRequestInput) :
    Except String RecordAccessTx :=
  if dataset.accessPolicy.policyType == .stakeGated
      && decide (input.stakeAmount.getD 0 < dataset.accessPolicy.minStake.getD 0) then
    .error "Insufficient WAL stake for access"
  else if dataset.accessPolicy.policyType == .tokenGated
      && decide ((((input.tokenHoldings.getD []).filter
          (fun t => (dataset.accessPolicy.allowedTokens.getD []).contains t)).length)
        = 0) then
    .error "Token-gated access denied"
  else
    .ok { datasetId := input.datasetId, requester := input.requester
          purpose := input.purpose, certificateId := dataset.certificateId
          stakeAmount := input.stakeAmount }

/-- On-chain certificate object
(src/contracts/sources/dataset_certificate.move `DatasetCertificate`). -/
structure DatasetCertificate where
  objectId : String
  dataset_id : String
  owner : String
  walrus_blob : String
  min_stake : Nat
  status : Nat
deriving DecidableEq, Repr

def STATUS_CERTIFIED : Nat := 1
def STATUS_DISPUTED : Nat := 2

/-- On-chain access record (dataset_certificate.move `AccessRecord`). -/
structure ChainAccessRecord where
  id : Nat
  dataset_id : String
  certificate_id : String
  requester : String
  purpose : String
  stake_amount : Nat
  timestamp : Nat
deriving DecidableEq, Repr

/-- On-chain access registry (dataset_certificate.move `AccessRegistry`). -/
structure AccessRegistry where
  records : List ChainAccessRecord
  counter : Nat
deriving DecidableEq, Repr

/-- `record_access` (dataset_certificate.move lines 376-409).  An
`Except.error code` models a Move `abort`: the transaction rolls back and the
registry is unchanged. -/
def record_access (registry : AccessRegistry) (certificate : DatasetCertificate)
    (purpose : String) (stake_amount : Nat) (sender : String) (timestamp : Nat) :
    Except Nat AccessRegistry :=
  if certificate.status ≠ STATUS_CERTIFIED then .error 0
  else if stake_amount < certificate.min_stake then .error 1
  else
    let record_id := registry.counter
    .ok { records := registry.records ++
            [{ id := record_id, dataset_id := certificate.dataset_id
               certificate_id := certificate.objectId, requester := sender
               purpose := purpose, stake_amount := stake_amount
               timestamp := timestamp }]
          counter := record_id + 1 }

/-- C4: an access request against a stake-gated dataset with stake strictly
below the minimum is rejected off-chain before any ledger submission is built,
and the on-chain `record_access` aborts (error code 1 on a certified
certificate, 0 when not certified), so no AccessRecord is created on either
side. -/
theorem stake_gate_rejects (dataset : DatasetRecord) (input : AccessRequestInput)
    (registry : AccessRegistry) (certificate : DatasetCertificate)
    (purpose sender : String) (stake timestamp : Nat)
    (hPolicy : dataset.accessPolicy.policyType = .stakeGated)
    (hOff : input.stakeAmount.getD 0 < dataset.accessPolicy.minStake.getD 0)
    (hOn : stake < certificate.min_stake) :
    recordAccess dataset input = .error "Insufficient WAL stake for access"
    ∧ record_access registry certificate purpose stake sender timestamp
        = .error (if certificate.status = STATUS_CERTIFIED then 1 else 0) := by
  constructor
  · unfold recordAccess
    rw [if_pos]
    rw [hPolicy]
    simp [hOff]
  · unfold record_access
    by_cases hs : certificate.status = STATUS_CERTIFIED
    · rw [if_neg (by simp [hs]), if_pos hOn, if_pos hs]
    · rw [if_pos hs, if_neg hs]

/-- Witness for C4: stake 10 offered against minimum 100, on a certified
certificate. -/
theorem stake_gate_rejects_witness :
    (let dataset : DatasetRecord :=
      { demoDataset with accessPolicy :=
          { policyType := .stakeGated, minStake := some 100, allowedTokens := none } }
     let input : AccessRequestInput :=
      { datasetId := "dataset-demo", requester := "0xr", purpose := "train"
        stakeAmount := some 10, tokenHoldings := none }
     let certificate : DatasetCertificate :=
      { objectId := "0xc", dataset_id := "dataset-demo", owner := "0xo"
        walrus_blob := "blob-1", min_stake := 100, status := STATUS_CERTIFIED }
     let registry : AccessRegistry := { records := [], counter := 0 }
     recordAccess dataset input = .error "Insufficient WAL stake for access"
    ∧ record_access registry certificate "train" 10 "0xr" 0
        = .error (if certificate.status = STATUS_CERTIFIED then 1 else 0)) :=
  stake_gate_rejects _ _ _ _ "train" "0xr" 10 0 (by decide) (by decide) (by decide)

/-! ### Nautilus attestation pipeline (C1) -/

def INTENT_PROCESS_DATA : Nat := 0
def ENAUTILUS_NOT_INITIALIZED : Nat := 10
def ENAUTILUS_INVALID_SIGNATURE : Nat := 11

/-- `WalrusVerificationResult` (dataset_certificate.move lines 149-156). -/
structure WalrusVerificationResult where
  blob_id : String
  expected_sha256 : String
  computed_sha256 : String
  verified : Bool
  blob_size : Nat
  walrus_gateway : String
deriving DecidableEq, Repr

/-- `IntentEnvelope` (dataset_certificate.move lines 158-162). -/
structure IntentEnvelope where
  intent : Nat
  timestamp_ms : Nat
  data : WalrusVerificationResult
deriving DecidableEq, Repr

/-- `NautilusVerifier` (dataset_certificate.move lines 134-140). -/
structure NautilusVerifier where
  admin : String
  expected_pcrs : List (List Nat)
  enclave_public_key : Option (List Nat)
deriving DecidableEq, Repr

/-- On-chain `TrustScore` (dataset_certificate.move lines 79-88). -/
structure ChainTrustScore where
  dataset_id : String
  score : Nat
  provenance_score : Nat
  integrity_score : Nat
  audit_score : Nat
  usage_score : Nat
  last_updated : Nat
  verified_by_nautilus : Bool
deriving DecidableEq, Repr

/-- The `TrustOracle` shared object's `scores` table
(dataset_certificate.move lines 91-94). -/
structure TrustOracleState where
  scores : List (String × ChainTrustScore)
deriving DecidableEq, Repr

/-- `upsert_trust_score` (dataset_certificate.move lines 507-557): total is
the sum of the four sub-scores; an existing entry is removed and re-added
(modelled as filter-out plus append, which also covers the fresh-add branch). -/
def upsert_trust_score (oracle : TrustOracleState) (dataset_id : String)
    (provenance_score integrity_score audit_score usage_score : Nat)
    (verified_by_nautilus : Bool) (now : Nat) : TrustOracleState :=
  let total_score := provenance_score + integrity_score + audit_score + usage_score
  let trust_score : ChainTrustScore :=
    { dataset_id := dataset_id, score := total_score
      provenance_score := provenance_score, integrity_score := integrity_score
      audit_score := audit_score, usage_score := usage_score
      last_updated := now, verified_by_nautilus := verified_by_nautilus }
  { scores := (oracle.scores.filter (fun kv => kv.1 != dataset_id))
      ++ [(dataset_id, trust_score)] }

/-- External cryptographic primitives: Sui `ed25519::ed25519_verify`,
`bcs::to_bytes`, and node `Buffer.from(hex, 'hex')`. -/
structure CryptoEnv where
  ed25519Verify : List Nat → List Nat → List Nat → Bool
  bcsSerialize : IntentEnvelope → List Nat
  hexToBytes : String → List Nat

/-- `update_trust_score_with_nautilus` (dataset_certificate.move lines
436-495).  `Except.error code` models a Move `abort` (the oracle table is left
untouched); on success the score is upserted with
`verified_by_nautilus := true`. -/
def update_trust_score_with_nautilus (env : CryptoEnv) (oracle : TrustOracleState)
    (verifier : NautilusVerifier) (dataset_id : String)
    (provenance_score integrity_score audit_score usage_score : Nat)
    (blob_id expected_sha256 computed_sha256 : String) (verified : Bool)
    (blob_size : Nat) (walrus_gateway : String) (timestamp_ms : Nat)
    (signature : List Nat) (now : Nat) : Except Nat TrustOracleState :=
  match verifier.enclave_public_key with
  | none => .error ENAUTILUS_NOT_INITIALIZED
  | some pk =>
    let verification : WalrusVerificationResult :=
      { blob_id := blob_id, expected_sha256 := expected_sha256
        computed_sha256 := computed_sha256, verified := verified
        blob_size := blob_size, walrus_gateway := walrus_gateway }
    let intent : IntentEnvelope :=
      { intent := INTENT_PROCESS_DATA, timestamp_ms := timestamp_ms
        data := verification }
    let message_bytes := env.bcsSerialize intent
    if env.ed25519Verify signature pk message_bytes then
      .ok (upsert_trust_score oracle dataset_id provenance_score integrity_score
        audit_score usage_score true now)
    else
      .error ENAUTILUS_INVALID_SIGNATURE

/-- Input of `SuiClient.updateTrustScoreWithNautilus`
(src/backend/src/lib/suiClient.ts `UpdateTrustScoreWithNautilusInput`). -/
structure UpdateTrustScoreWithNautilusInput where
  datasetId : String
  provenanceScore : Int
  integrityScore : Int
  auditScore : Int
  usageScore : Int
  verifiedByNautilus : Bool
  blobId : String
  expectedSha256 : String
  computedSha256 : String
  verified : Bool
  blobSize : Nat
  walrusGateway : String
  timestampMs : Nat
  signature : String
deriving DecidableEq, Repr

/-- `SuiClient.updateTrustScoreWithNautilus` (suiClient.ts lines 239-286):
when the keypair or any required object id is missing (`configured = false`)
it returns a mock digest without touching the chain; when the transaction
aborts (e.g. invalid enclave signature) the `catch` swallows the error and
returns a mock fallback digest — in both degraded cases the oracle table is
unchanged and *no error propagates to the caller*. -/
def suiUpdateTrustScoreWithNautilus (env : CryptoEnv) (configured : Bool)
    (oracle : TrustOracleState) (verifier : NautilusVerifier)
    (input : UpdateTrustScoreWithNautilusInput) (now : Nat) :
    TrustOracleState × String :=
  if !configured then (oracle, "0xmock_trust_nautilus")
  else
    match update_trust_score_with_nautilus env oracle verifier input.datasetId
      input.provenanceScore.toNat input.integrityScore.toNat
      input.auditScore.toNat input.usageScore.toNat
      input.blobId input.expectedSha256 input.computedSha256 input.verified
      input.blobSize input.walrusGateway input.timestampMs
      (env.hexToBytes input.signature) now with
    | .ok oracleNew => (oracleNew, "0xdigest")
    | .error _ => (oracle, "0xmock_fallback_nautilus")

/-- A cached attestation record (nautilusOracle.ts
`NautilusVerificationRecord`). -/
structure NautilusRecord where
  proof : NautilusVerificationProof
  trustScore : TrustScore
deriving DecidableEq, Repr

/-- The backend-visible world state for the attestation pipeline: the on-chain
oracle table and verifier object, the off-chain projection store, and the
in-process `verificationCache`. -/
structure BackendState where
  oracle : TrustOracleState
  verifier : NautilusVerifier
  projection : ProjectionState
  cache : List (String × NautilusRecord)
deriving DecidableEq, Repr

/-- `finalizeNautilusVerification` (src/backend/src/services/nautilusOracle.ts
lines 95-119): derive an integrity check from the proof body alone, score the
dataset with `verifiedByNautilus := proof.verified`, attach the proof, publish
on-chain via the error-swallowing Sui client, persist the snapshot off-chain,
and cache the record.  No signature verification happens on this path. -/
def finalizeNautilusVerification (env : CryptoEnv) (configured : Bool)
    (st : BackendState) (dataset : DatasetRecord)
    (proof : NautilusVerificationProof) (now : Nat) :
    BackendState × TrustScore :=
  let integrityCheck : IntegrityVerificationResult :=
    { sha256Match := proof.computedSha256.toLower == proof.expectedSha256.toLower
      poseidonMatch := proof.verified
      integrityRootValid := proof.verified
      walrusLatencyMs := none }
  let trustScore0 := calculateTrustScore dataset proof.verified (some integrityCheck)
  let trustScore := { trustScore0 with nautilusProof := some proof }
  let pub := suiUpdateTrustScoreWithNautilus env configured st.oracle st.verifier
    { datasetId := trustScore.datasetId
      provenanceScore := trustScore.provenanceScore
      integrityScore := trustScore.integrityScore
      auditScore := trustScore.auditScore
      usageScore := trustScore.usageScore
      verifiedByNautilus := trustScore.verifiedByNautilus
      blobId := proof.blobId, expectedSha256 := proof.expectedSha256
      computedSha256 := proof.computedSha256, verified := proof.verified
      blobSize := proof.blobSize, walrusGateway := proof.walrusGateway
      timestampMs := proof.timestampMs, signature := proof.signature } now
  let projectionNew := saveTrustScore st.projection dataset.id trustScore
  let cacheNew := (st.cache.filter (fun kv => kv.1 != dataset.id))
    ++ [(dataset.id, { proof := proof, trustScore := trustScore })]
  ({ st with oracle := pub.1, projection := projectionNew, cache := cacheNew },
   trustScore)

/-- Helper: the on-chain entry point aborts with `ENAUTILUS_INVALID_SIGNATURE`
whenever the signature fails ed25519 verification against the registered key. -/
theorem update_tsn_invalid_sig (env : CryptoEnv) (oracle : TrustOracleState)
    (verifier : NautilusVerifier) (dataset_id : String) (p i a u : Nat)
    (blob exp comp : String) (verified : Bool) (size : Nat) (gw : String)
    (tms : Nat) (sig : List Nat) (now : Nat) (pk : List Nat)
    (hpk : verifier.enclave_public_key = some pk)
    (hsig : env.ed25519Verify sig pk (env.bcsSerialize
      { intent := INTENT_PROCESS_DATA, timestamp_ms := tms
        data := { blob_id := blob, expected_sha256 := exp
                  computed_sha256 := comp, verified := verified
                  blob_size := size, walrus_gateway := gw } }) = false) :
    update_trust_score_with_nautilus env oracle verifier dataset_id p i a u
      blob exp comp verified size gw tms sig now
      = .error ENAUTILUS_INVALID_SIGNATURE := by
  unfold update_trust_score_with_nautilus
  rw [hpk]
  simp only [hsig]
  rfl

/-- Helper: under a rejected signature the error-swallowing Sui client leaves
the oracle table unchanged (mock mode or caught abort). -/
theorem suiUpdate_oracle_unchanged (env : CryptoEnv) (configured : Bool)
    (oracle : TrustOracleState) (verifier : NautilusVerifier)
    (input : UpdateTrustScoreWithNautilusInput) (now : Nat) (pk : List Nat)
    (hpk : verifier.enclave_public_key = some pk)
    (hsig : env.ed25519Verify (env.hexToBytes input.signature) pk
      (env.bcsSerialize
        { intent := INTENT_PROCESS_DATA, timestamp_ms := input.timestampMs
          data := { blob_id := input.blobId, expected_sha256 := input.expectedSha256
                    computed_sha256 := input.computedSha256
                    verified := input.verified, blob_size := input.blobSize
                    walrus_gateway := input.walrusGateway } }) = false) :
    (suiUpdateTrustScoreWithNautilus env configured oracle verifier input now).1
      = oracle := by
  unfold suiUpdateTrustScoreWithNautilus
  cases configured with
  | false => rfl
  | true =>
    rw [update_tsn_invalid_sig env oracle verifier input.datasetId
      input.provenanceScore.toNat input.integrityScore.toNat
      input.auditScore.toNat input.usageScore.toNat
      input.blobId input.expectedSha256 input.computedSha256 input.verified
      input.blobSize input.walrusGateway input.timestampMs
      (env.hexToBytes input.signature) now pk hpk hsig]
    rfl

/-- Helper: a filter-out-then-append write of a keyed entry is what `find?`
returns for that key (`Map.set` / table upsert pattern). -/
theorem find?_setKey {α : Type} (l : List (String × α)) (k : String) (r : α) :
    ((l.filter (fun kv => kv.1 != k)) ++ [(k, r)]).find? (fun kv => kv.1 == k)
      = some (k, r) := by
  rw [find?_append_of_none]
  · exact List.find?_cons_of_pos _ (by simp)
  · rw [List.find?_eq_none]
    intro a ha
    have h2 := (List.mem_filter.mp ha).2
    simp only [bne_iff_ne, ne_eq, decide_eq_true_eq] at h2
    simp only [beq_iff_eq]
    exact h2

/-- C1 (amended): an enclave proof whose signature fails verification against
the registered enclave public key is rejected by the on-chain entry point
(`update_trust_score_with_nautilus` aborts with `ENAUTILUS_INVALID_SIGNATURE`,
leaving the on-chain oracle table unchanged even through the error-swallowing
Sui client); the off-chain attestation path, however, performs no signature
check: it still persists the snapshot carrying the proof to the projection
store, caches it, and sets `verifiedByNautilus` to the proof's own `verified`
flag rather than keeping it false. -/
theorem nautilus_signature_handling (env : CryptoEnv) (configured : Bool)
    (st : BackendState) (dataset : DatasetRecord)
    (proof : NautilusVerificationProof) (now : Nat) (p i a u : Nat)
    (pk : List Nat)
    (hpk : st.verifier.enclave_public_key = some pk)
    (hsig : env.ed25519Verify (env.hexToBytes proof.signature) pk
      (env.bcsSerialize
        { intent := INTENT_PROCESS_DATA, timestamp_ms := proof.timestampMs
          data := { blob_id := proof.blobId
                    expected_sha256 := proof.expectedSha256
                    computed_sha256 := proof.computedSha256
                    verified := proof.verified, blob_size := proof.blobSize
                    walrus_gateway := proof.walrusGateway } }) = false) :
    update_trust_score_with_nautilus env st.oracle st.verifier dataset.id
        p i a u proof.blobId proof.expectedSha256 proof.computedSha256
        proof.verified proof.blobSize proof.walrusGateway proof.timestampMs
        (env.hexToBytes proof.signature) now
      = .error ENAUTILUS_INVALID_SIGNATURE
    ∧ (finalizeNautilusVerification env configured st dataset proof now).1.oracle
        = st.oracle
    ∧ (finalizeNautilusVerification env configured st dataset proof now).2.verifiedByNautilus
        = proof.verified
    ∧ (finalizeNautilusVerification env configured st dataset proof now).2.nautilusProof
        = some proof
    ∧ (finalizeNautilusVerification env configured st dataset proof now).1.projection
        = saveTrustScore st.projection dataset.id
            (finalizeNautilusVerification env configured st dataset proof now).2
    ∧ (finalizeNautilusVerification env configured st dataset proof now).1.cache.find?
          (fun kv => kv.1 == dataset.id)
        = some (dataset.id,
            { proof := proof
              trustScore :=
                (finalizeNautilusVerification env configured st dataset proof now).2 }) := by
  refine ⟨update_tsn_invalid_sig env st.oracle st.verifier dataset.id p i a u
      proof.blobId proof.expectedSha256 proof.computedSha256 proof.verified
      proof.blobSize proof.walrusGateway proof.timestampMs
      (env.hexToBytes proof.signature) now pk hpk hsig,
    ?_, rfl, rfl, rfl, ?_⟩
  · exact suiUpdate_oracle_unchanged env configured st.oracle st.verifier _ now pk hpk hsig
  · exact find?_setKey st.cache dataset.id _

/-- Witness for C1 (amended) at an environment whose ed25519 check rejects
everything, a registered 32-byte key, and a concrete tampered proof. -/
theorem nautilus_signature_handling_witness :
    (let env : CryptoEnv :=
      { ed25519Verify := fun _ _ _ => false
        bcsSerialize := fun _ => [], hexToBytes := fun _ => [] }
     let proof : NautilusVerificationProof :=
      { blobId := "blob-1", expectedSha256 := "aa", computedSha256 := "aa"
        verified := true, blobSize := 64, walrusGateway := "gw"
        timestampMs := 1, signature := "ff" }
     let st : BackendState :=
      { oracle := { scores := [] }
        verifier := { admin := "0xa", expected_pcrs := []
                      enclave_public_key := some (List.replicate 32 0) }
        projection := { datasets := [], accessRecords := [], trustHistory := []
                        nextId := 1 }
        cache := [] }
     update_trust_score_with_nautilus env st.oracle st.verifier demoDataset.id
        25 25 25 5 proof.blobId proof.expectedSha256 proof.computedSha256
        proof.verified proof.blobSize proof.walrusGateway proof.timestampMs
        (env.hexToBytes proof.signature) 0
      = .error ENAUTILUS_INVALID_SIGNATURE
    ∧ (finalizeNautilusVerification env true st demoDataset proof 0).1.oracle
        = st.oracle
    ∧ (finalizeNautilusVerification env true st demoDataset proof 0).2.verifiedByNautilus
        = proof.verified
    ∧ (finalizeNautilusVerification env true st demoDataset proof 0).2.nautilusProof
        = some proof
    ∧ (finalizeNautilusVerification env true st demoDataset proof 0).1.projection
        = saveTrustScore st.projection demoDataset.id
            (finalizeNautilusVerification env true st demoDataset proof 0).2
    ∧ (finalizeNautilusVerification env true st demoDataset proof 0).1.cache.find?
          (fun kv => kv.1 == demoDataset.id)
        = some (demoDataset.id,
            { proof := proof
              trustScore :=
                (finalizeNautilusVerification env true st demoDataset proof 0).2 })) :=
  nautilus_signature_handling _ true _ demoDataset _ 0 25 25 25 5
    (List.replicate 32 0) (by decide) (by decide)

/-- Concrete world for the C1 counterexample: the projection already holds the
dataset's row, the verifier has a registered key, and the enclave proof's
signature fails ed25519 verification. -/
def cexEnv : CryptoEnv :=
  { ed25519Verify := fun _ _ _ => false
    bcsSerialize := fun _ => []
    hexToBytes := fun _ => [] }

/-- Tampered enclave proof: its body claims `verified = true` but its
signature does not verify. -/
def cexProof : NautilusVerificationProof :=
  { blobId := "blob-1", expectedSha256 := "aa", computedSha256 := "aa"
    verified := true, blobSize := 64, walrusGateway := "gw"
    timestampMs := 1, signature := "ff" }

/-- Backend state for the C1 counterexample. -/
def cexState : BackendState :=
  { oracle := { scores := [] }
    verifier := { admin := "0xa", expected_pcrs := []
                  enclave_public_key := some (List.replicate 32 0) }
    projection :=
      { datasets :=
          [{ id := 1, datasetId := "dataset-demo", name := "Demo"
             description := "Demo dataset", owner := "0xowner"
             walrusBlobId := "blob-1", status := "certified"
             downloads := 4, totalRevenue := 0, trustScore := none
             trustFactors := none }]
        accessRecords := [], trustHistory := [], nextId := 2 }
    cache := [] }

/-- C1 counterexample: the on-chain entry point rejects this tampered-signature
proof (`ENAUTILUS_INVALID_SIGNATURE`, oracle table untouched), yet the
off-chain attestation path merges it anyway — the resulting snapshot carries
the proof with `verifiedByNautilus = true`, a trust-score history row is
persisted, and the proof is cached — refuting "the proof is never merged, no
snapshot is persisted or cached, and the flag remains false". -/
theorem nautilus_tampered_signature_merged_cex :
    cexEnv.ed25519Verify (cexEnv.hexToBytes cexProof.signature)
        (List.replicate 32 0)
        (cexEnv.bcsSerialize
          { intent := INTENT_PROCESS_DATA, timestamp_ms := cexProof.timestampMs
            data := { blob_id := cexProof.blobId
                      expected_sha256 := cexProof.expectedSha256
                      computed_sha256 := cexProof.computedSha256
                      verified := cexProof.verified
                      blob_size := cexProof.blobSize
                      walrus_gateway := cexProof.walrusGateway } }) = false
    ∧ update_trust_score_with_nautilus cexEnv cexState.oracle cexState.verifier
        demoDataset.id 25 25 25 5 cexProof.blobId cexProof.expectedSha256
        cexProof.computedSha256 cexProof.verified cexProof.blobSize
        cexProof.walrusGateway cexProof.timestampMs
        (cexEnv.hexToBytes cexProof.signature) 0
      = .error ENAUTILUS_INVALID_SIGNATURE
    ∧ (finalizeNautilusVerification cexEnv true cexState demoDataset cexProof 0).1.oracle
        = cexState.oracle
    ∧ (finalizeNautilusVerification cexEnv true cexState demoDataset cexProof 0).2.verifiedByNautilus
        = true
    ∧ (finalizeNautilusVerification cexEnv true cexState demoDataset cexProof 0).2.nautilusProof
        = some cexProof
    ∧ (finalizeNautilusVerification cexEnv true cexState demoDataset cexProof 0).1.projection.trustHistory.length
        = 1
    ∧ ((finalizeNautilusVerification cexEnv true cexState demoDataset cexProof 0).1.cache.find?
          (fun kv => kv.1 == demoDataset.id)).isSome = true := by
  refine ⟨rfl, rfl, by decide, rfl, rfl, by decide, rfl⟩

end DataCert
